import Mathlib

/-!
Shallow embedding of the propertyPandit backend (`src/app.py`).

The computational core is a deterministic pricing formula
(`HousingPricePredictor.calculate_ols_price`), an Indian currency formatter
(`format_indian_currency`), and two request handlers (`predict`, `retrain_model`).
Python real arithmetic is modelled over `ℚ`; Python `f"{x:.1f}"`, `f"{x:.0f}"`
and `f"{x:,.0f}"` formatting is modelled via round-half-even (Python's default
rounding for `round` and fixed-point formatting on exact values) together with
decimal digit rendering and thousands grouping.
-/

namespace PropertyPandit

/-- Python dynamic value for the `furnishing` field, which the source compares
both against the int `4` and against the string `"other"`.  Python `int == str`
is `False`, which the constructor distinction captures. -/
inductive PyVal where
  | int (n : ℤ)
  | str (s : String)
deriving DecidableEq

/-- Round a rational to the nearest integer, ties to even: the rounding Python
applies in `round(x, n)` and in fixed-point `f"{x:.nf}"` formatting. -/
def rhe (q : ℚ) : ℤ :=
  let f : ℤ := ⌊q⌋
  if q - (f : ℚ) < 1 / 2 then f
  else if (1 : ℚ) / 2 < q - (f : ℚ) then f + 1
  else if f % 2 = 0 then f else f + 1

/-- Python `f"{q:.1f}"`: fixed-point rendering with exactly one decimal digit,
with a leading minus sign for negative inputs (including those rounding to 0). -/
def fmtFixed1 (q : ℚ) : String :=
  let n : ℤ := rhe (q * 10)
  let m : ℕ := n.natAbs
  (if q < 0 then "-" else "") ++ toString (m / 10) ++ "." ++ toString (m % 10)

/-- Python `f"{q:.0f}"`: fixed-point rendering with no decimal digits. -/
def fmtFixed0 (q : ℚ) : String :=
  (if q < 0 then "-" else "") ++ toString (rhe q).natAbs

/-- Insert a comma after every three digits of a reversed digit list. -/
def group3Aux : List Char → List Char
  | a :: b :: c :: d :: rest => a :: b :: c :: ',' :: group3Aux (d :: rest)
  | l => l

/-- Thousands grouping of a digit string, as Python's `,` format flag does. -/
def groupDigits (s : String) : String :=
  String.mk ((group3Aux s.data.reverse).reverse)

/-- Python `f"{q:,.0f}"`: round to an integer, render with thousands
separators, minus sign for negative inputs. -/
def fmtGrouped0 (q : ℚ) : String :=
  (if q < 0 then "-" else "") ++ groupDigits (toString (rhe q).natAbs)

/-- Function `format_indian_currency` from `src/app.py`: three magnitude tiers
(crores, lakhs, plain grouped integer), first match wins. -/
def format_indian_currency (amount : ℚ) : String :=
  if amount ≥ 10000000 then
    let crores := amount / 10000000
    if crores ≥ 100 then "₹" ++ fmtFixed0 crores ++ " Cr"
    else "₹" ++ fmtFixed1 crores ++ " Cr"
  else if amount ≥ 100000 then
    let lakhs := amount / 100000
    if lakhs ≥ 100 then "₹" ++ fmtFixed0 lakhs ++ " L"
    else "₹" ++ fmtFixed1 lakhs ++ " L"
  else
    "₹" ++ fmtGrouped0 amount

/-- The input feature record (`features` dict built by the `predict` route). -/
structure Features where
  size : ℚ
  bedrooms : ℤ
  bathrooms : ℤ
  avg_local_rent : ℚ
  growth_rate : ℚ
  city_tier : ℤ
  property_type : String
  furnishing : PyVal
  rera_registered : ℤ
  move_in_ready : ℤ
deriving DecidableEq

/-- The fixed coefficient dict built in `HousingPricePredictor.__init__`, in source order. -/
def coefficients : List (String × ℚ) :=
  [("intercept", 3000000),
   ("size", 2500),
   ("beds", 800000),
   ("baths", 400000),
   ("average_rent", 15),
   ("growth_rate", 8000000),
   ("size_squared", 0.5),
   ("nearby_rent_squared", -0.001),
   ("tier_beds", -200000),
   ("tier_growth", 5000000),
   ("tier_2", -800000),
   ("property_type_house", -500000),
   ("property_type_other", -1000000),
   ("rera_id_1", 300000),
   ("furnishing_4", 500000),
   ("furnishing_other", 800000),
   ("move_in_1", 200000)]

/-- Dictionary access `self.coefficients[k]` (every key used by the source is
present, so the default is never reached). -/
def coeff (k : String) : ℚ := (coefficients.lookup k).getD 0

/-- The `feature_columns` list built in `HousingPricePredictor.__init__`. -/
def feature_columns : List String :=
  ["size", "bedrooms", "bathrooms", "avg_local_rent",
   "growth_rate", "city_tier", "property_type", "furnishing",
   "rera_registered", "move_in_ready"]

/-- Categorical adjustment for `city_tier == 2` (lines 80-81 of `app.py`). -/
def tier2Adj (t : ℤ) : ℚ := if t = 2 then coeff "tier_2" else 0

/-- Categorical adjustment for `property_type` (lines 83-86 of `app.py`). -/
def propertyAdj (p : String) : ℚ :=
  if p = "house" then coeff "property_type_house"
  else if p = "other" then coeff "property_type_other"
  else 0

/-- Categorical adjustment for `rera_registered == 1` (lines 88-89 of `app.py`). -/
def reraAdj (r : ℤ) : ℚ := if r = 1 then coeff "rera_id_1" else 0

/-- Categorical adjustment for `furnishing` (lines 91-94 of `app.py`): the
source compares the dynamic value against the int `4`, then the string `"other"`. -/
def furnishingAdj (v : PyVal) : ℚ :=
  if v = PyVal.int 4 then coeff "furnishing_4"
  else if v = PyVal.str "other" then coeff "furnishing_other"
  else 0

/-- Categorical adjustment for `move_in_ready == 1` (lines 96-97 of `app.py`). -/
def moveInAdj (m : ℤ) : ℚ := if m = 1 then coeff "move_in_1" else 0

/-- Steps 1-5 of `calculate_ols_price` (lines 62-97 of `app.py`): intercept,
linear terms, polynomial terms, interaction terms, categorical adjustments.
This is the accumulated price before the tier multiplier. -/
def accumulate (f : Features) : ℚ :=
  coeff "intercept"
    + coeff "size" * f.size
    + coeff "beds" * (f.bedrooms : ℚ)
    + coeff "baths" * (f.bathrooms : ℚ)
    + coeff "average_rent" * f.avg_local_rent
    + coeff "growth_rate" * f.growth_rate
    + coeff "size_squared" * f.size ^ 2 / 1000
    + coeff "nearby_rent_squared" * f.avg_local_rent ^ 2 / 1000
    + coeff "tier_beds" * ((f.city_tier : ℚ) * (f.bedrooms : ℚ))
    + coeff "tier_growth" * ((f.city_tier : ℚ) * f.growth_rate)
    + tier2Adj f.city_tier
    + propertyAdj f.property_type
    + reraAdj f.rera_registered
    + furnishingAdj f.furnishing
    + moveInAdj f.move_in_ready

/-- The tier multiplier step (lines 100-103 of `app.py`) applied to the
accumulated price: the price before the final clamp. -/
def preClamp (f : Features) : ℚ :=
  if f.city_tier = 1 then accumulate f * 1.2
  else if f.city_tier = 3 then accumulate f * 0.6
  else accumulate f

/-- Method `HousingPricePredictor.calculate_ols_price` (line 105 of `app.py`):
the clamped final price. -/
def calculate_ols_price (f : Features) : ℚ := max (preClamp f) 1000000

/-- Method `HousingPricePredictor.predict_price` simply delegates. -/
def predict_price (f : Features) : ℚ := calculate_ols_price f

/-- Python `round(q, 2)`: round half to even at two decimal places. -/
def round2 (q : ℚ) : ℚ := (rhe (q * 100) : ℚ) / 100

/-- The form data reaching the `predict` route, field by field.  Each field
holds the outcome of `request.form[k]` followed by the conversion the route
applies (`float`/`int` for numeric fields, nothing for `property_type` and
`furnishing`): either the converted value, or the message of the exception
raised (missing key or failed parse).  Python decimal-string parsing itself is
abstracted into this outcome. -/
structure Form where
  size : Except String ℚ
  bedrooms : Except String ℤ
  bathrooms : Except String ℤ
  avg_local_rent : Except String ℚ
  growth_rate : Except String ℚ
  city_tier : Except String ℤ
  property_type : Except String String
  furnishing : Except String String
  rera_registered : Except String ℤ
  move_in_ready : Except String ℤ

/-- The `features` dict construction in `predict` (lines 122-133 of `app.py`):
fields are evaluated in source order and the first exception aborts.  Note that
`property_type` and `furnishing` are stored as raw strings. -/
def parseForm (fm : Form) : Except String Features := do
  let size ← fm.size
  let bedrooms ← fm.bedrooms
  let bathrooms ← fm.bathrooms
  let avg_local_rent ← fm.avg_local_rent
  let growth_rate ← fm.growth_rate
  let city_tier ← fm.city_tier
  let property_type ← fm.property_type
  let furnishing ← fm.furnishing
  let rera_registered ← fm.rera_registered
  let move_in_ready ← fm.move_in_ready
  pure { size := size, bedrooms := bedrooms, bathrooms := bathrooms,
         avg_local_rent := avg_local_rent, growth_rate := growth_rate,
         city_tier := city_tier, property_type := property_type,
         furnishing := PyVal.str furnishing,
         rera_registered := rera_registered, move_in_ready := move_in_ready }

/-- The JSON body returned by the `predict` route: success variant with the
three payload fields, or failure variant with the error description. -/
inductive PredictResponse where
  | ok (predicted_price : ℚ) (formatted_price : String) (price_in_lakhs : String)
  | err (error : String)
deriving DecidableEq

/-- The `predict` route (lines 118-149 of `app.py`): parse the form; on
success return the rounded price, the formatted price and the "Lakhs" string;
on any exception return a failure response with the error message. -/
def predict (fm : Form) : PredictResponse :=
  match parseForm fm with
  | Except.ok f =>
      let predicted_price := predict_price f
      PredictResponse.ok (round2 predicted_price)
        (format_indian_currency predicted_price)
        ("₹" ++ fmtFixed1 (predicted_price / 100000) ++ " Lakhs")
  | Except.error e => PredictResponse.err e

/-- The static metadata dict built by the `retrain` route. -/
structure ModelInfo where
  model_type : String
  r_squared : String
  coefficients : List (String × ℚ)
  features : List String
  price_range : String
  currency_format : String
deriving DecidableEq

/-- The JSON body returned by the `retrain` route. -/
structure RetrainResponse where
  success : Bool
  message : String
  model_info : ModelInfo
deriving DecidableEq

/-- The `retrain` route (lines 151-172 of `app.py`): returns fixed metadata;
the `try` body cannot raise, so the failure branch is unreachable. -/
def retrain_model : RetrainResponse :=
  { success := true
  , message := "Using adjusted OLS regression for realistic Indian housing prices!"
  , model_info :=
    { model_type := "Adjusted OLS Regression for Indian Real Estate"
    , r_squared := "92%"
    , coefficients := coefficients
    , features := feature_columns
    , price_range := "Realistic Indian housing prices (10L - 5Cr range)"
    , currency_format := "Indian Lakhs/Crores format" } }

/-- Sample feature record used to instantiate universally quantified theorems. -/
def sampleFeat : Features :=
  { size := 1000, bedrooms := 2, bathrooms := 2, avg_local_rent := 20000,
    growth_rate := 5, city_tier := 0, property_type := "apartment",
    furnishing := PyVal.str "2", rera_registered := 1, move_in_ready := 1 }

/-- Form submission with furnishing field `"4"`, all other fields simple. -/
def exForm4 : Form :=
  { size := Except.ok 100, bedrooms := Except.ok 1, bathrooms := Except.ok 1,
    avg_local_rent := Except.ok 0, growth_rate := Except.ok 0,
    city_tier := Except.ok 0, property_type := Except.ok "apartment",
    furnishing := Except.ok "4", rera_registered := Except.ok 0,
    move_in_ready := Except.ok 0 }

/-- The feature record the `predict` route builds from `exForm4`. -/
def exFeat4 : Features :=
  { size := 100, bedrooms := 1, bathrooms := 1, avg_local_rent := 0,
    growth_rate := 0, city_tier := 0, property_type := "apartment",
    furnishing := PyVal.str "4", rera_registered := 0, move_in_ready := 0 }

/-- As `exFeat4` but with an unadjusted furnishing value. -/
def exFeatNone : Features :=
  { size := 100, bedrooms := 1, bathrooms := 1, avg_local_rent := 0,
    growth_rate := 0, city_tier := 0, property_type := "apartment",
    furnishing := PyVal.str "none", rera_registered := 0, move_in_ready := 0 }

/-- Feature record in city tier 4, where the effective bedroom weight vanishes. -/
def c9Feat : Features :=
  { size := 1000, bedrooms := 2, bathrooms := 2, avg_local_rent := 0,
    growth_rate := 0, city_tier := 4, property_type := "apartment",
    furnishing := PyVal.str "2", rera_registered := 0, move_in_ready := 0 }

/-- Form submission whose first field already fails to parse. -/
def errForm : Form :=
  { size := Except.error "could not convert string to float: abc",
    bedrooms := Except.ok 1, bathrooms := Except.ok 1,
    avg_local_rent := Except.ok 0, growth_rate := Except.ok 0,
    city_tier := Except.ok 0, property_type := Except.ok "apartment",
    furnishing := Except.ok "2", rera_registered := Except.ok 0,
    move_in_ready := Except.ok 0 }

/-! Helper lemmas: coefficient lookups, round-half-even evaluation, and
formatter branch selection. -/

lemma coeff_intercept : coeff "intercept" = 3000000 := rfl

lemma coeff_size : coeff "size" = 2500 := rfl

lemma coeff_beds : coeff "beds" = 800000 := rfl

lemma coeff_baths : coeff "baths" = 400000 := rfl

lemma coeff_average_rent : coeff "average_rent" = 15 := rfl

lemma coeff_growth_rate : coeff "growth_rate" = 8000000 := rfl

lemma coeff_size_squared : coeff "size_squared" = 0.5 := rfl

lemma coeff_nearby_rent_squared : coeff "nearby_rent_squared" = -0.001 := rfl

lemma coeff_tier_beds : coeff "tier_beds" = -200000 := rfl

lemma coeff_tier_growth : coeff "tier_growth" = 5000000 := rfl

lemma coeff_tier_2 : coeff "tier_2" = -800000 := rfl

lemma coeff_property_type_house : coeff "property_type_house" = -500000 := rfl

lemma coeff_property_type_other : coeff "property_type_other" = -1000000 := rfl

lemma coeff_rera_id_1 : coeff "rera_id_1" = 300000 := rfl

lemma coeff_furnishing_4 : coeff "furnishing_4" = 500000 := rfl

lemma coeff_furnishing_other : coeff "furnishing_other" = 800000 := rfl

lemma coeff_move_in_1 : coeff "move_in_1" = 200000 := rfl

lemma rhe_eq_low (q : ℚ) (n : ℤ) (h1 : (n : ℚ) ≤ q) (h2 : q < (n : ℚ) + 1 / 2) :
    rhe q = n := by
  have hf : ⌊q⌋ = n := Int.floor_eq_iff.mpr ⟨h1, by linarith⟩
  simp only [rhe, hf]
  rw [if_pos (by linarith)]

lemma rhe_eq_high (q : ℚ) (n : ℤ) (h1 : (n : ℚ) + 1 / 2 < q) (h2 : q < (n : ℚ) + 1) :
    rhe q = n + 1 := by
  have hf : ⌊q⌋ = n := Int.floor_eq_iff.mpr ⟨by linarith, by linarith⟩
  simp only [rhe, hf]
  rw [if_neg (by linarith), if_pos (by linarith)]

lemma fmtFixed1_eval (q : ℚ) (n : ℤ) (h0 : ¬ q < 0) (hn : rhe (q * 10) = n) :
    fmtFixed1 q = toString (n.natAbs / 10) ++ "." ++ toString (n.natAbs % 10) := by
  simp only [fmtFixed1, hn, if_neg h0, String.empty_append]

lemma format_branch_crore1 (a : ℚ) (h1 : a ≥ 10000000) (h2 : ¬ a / 10000000 ≥ 100) :
    format_indian_currency a = "₹" ++ fmtFixed1 (a / 10000000) ++ " Cr" := by
  simp only [format_indian_currency, if_pos h1, if_neg h2]

lemma format_branch_lakh1 (a : ℚ) (h1 : ¬ a ≥ 10000000) (h2 : a ≥ 100000)
    (h3 : ¬ a / 100000 ≥ 100) :
    format_indian_currency a = "₹" ++ fmtFixed1 (a / 100000) ++ " L" := by
  simp only [format_indian_currency, if_neg h1, if_pos h2, if_neg h3]

lemma format_branch_small (a : ℚ) (h1 : ¬ a ≥ 10000000) (h2 : ¬ a ≥ 100000) :
    format_indian_currency a = "₹" ++ fmtGrouped0 a := by
  simp only [format_indian_currency, if_neg h1, if_neg h2]

lemma accumulate_size_diff (f : Features) (s1 s2 : ℚ) :
    accumulate { f with size := s2 } - accumulate { f with size := s1 } =
      2500 * (s2 - s1) + 0.5 * (s2 ^ 2 - s1 ^ 2) / 1000 := by
  simp only [accumulate, coeff_size, coeff_size_squared]
  ring

lemma accumulate_beds_diff (f : Features) (b1 b2 : ℤ) :
    accumulate { f with bedrooms := b2 } - accumulate { f with bedrooms := b1 } =
      (800000 - 200000 * (f.city_tier : ℚ)) * ((b2 : ℚ) - (b1 : ℚ)) := by
  simp only [accumulate, coeff_beds, coeff_tier_beds]
  ring


/-- C1: for every feature record, `calculate_ols_price` returns at least
1,000,000 currency units: the final `max` clamp makes the floor hold
unconditionally for all inputs. -/
theorem calculate_ols_price_floor (f : Features) :
    (1000000 : ℚ) ≤ calculate_ols_price f :=
  le_max_right _ _

/-- C1 witness: the floor theorem evaluated at the sample feature record. -/
theorem calculate_ols_price_floor_witness :
    (1000000 : ℚ) ≤ calculate_ols_price sampleFeat :=
  calculate_ols_price_floor sampleFeat

/-- C3 counterexample: `format_indian_currency 999999999` does not produce
`"₹100 Cr"`, and the crores value 99.9999999 does not reach the `crores ≥ 100`
branch claimed by the spec. -/
theorem format_crore_boundary_counterexample :
    format_indian_currency 999999999 ≠ "₹100 Cr" ∧
      ¬ (999999999 : ℚ) / 10000000 ≥ 100 := by
  have heval : format_indian_currency 999999999 = "₹100.0 Cr" := by
    rw [format_branch_crore1 _ (by norm_num) (by norm_num),
      fmtFixed1_eval _ 1000 (by norm_num) (rhe_eq_high _ 999 (by norm_num) (by norm_num))]
    rfl
  exact ⟨by rw [heval]; decide, by norm_num⟩

/-- C3 amended: `format_indian_currency 999999999` takes the crores branch with
crores = 99.9999999 < 100, so it renders with 1 decimal place, and rounding at
that place yields `"₹100.0 Cr"`. -/
theorem format_crore_boundary_amended :
    format_indian_currency 999999999 = "₹100.0 Cr" ∧
      (999999999 : ℚ) / 10000000 < 100 := by
  constructor
  · rw [format_branch_crore1 _ (by norm_num) (by norm_num),
      fmtFixed1_eval _ 1000 (by norm_num) (rhe_eq_high _ 999 (by norm_num) (by norm_num))]
    rfl
  · norm_num

/-- C6: the formatter rules are evaluated in order, first match winning:
`format(10000000) = "₹1.0 Cr"`, `format(50000) = "₹50,000"` (no suffix), and
`format(9999999)` lies in the lakhs tier where 99.99999 lakhs rounds at one
decimal place to `"₹100.0 L"`. -/
theorem format_boundaries :
    format_indian_currency 10000000 = "₹1.0 Cr" ∧
      format_indian_currency 50000 = "₹50,000" ∧
      (100000 : ℚ) ≤ 9999999 ∧ (9999999 : ℚ) < 10000000 ∧
      format_indian_currency 9999999 = "₹100.0 L" := by
  refine ⟨?_, ?_, by norm_num, by norm_num, ?_⟩
  · rw [format_branch_crore1 _ (by norm_num) (by norm_num),
      fmtFixed1_eval _ 10 (by norm_num) (rhe_eq_low _ 10 (by norm_num) (by norm_num))]
    rfl
  · rw [format_branch_small _ (by norm_num) (by norm_num)]
    have h : rhe (50000 : ℚ) = 50000 := rhe_eq_low _ 50000 (by norm_num) (by norm_num)
    simp only [fmtGrouped0, h, if_neg (show ¬ (50000 : ℚ) < 0 by norm_num)]
    rfl
  · rw [format_branch_lakh1 _ (by norm_num) (by norm_num) (by norm_num),
      fmtFixed1_eval _ 1000 (by norm_num) (rhe_eq_high _ 999 (by norm_num) (by norm_num))]
    rfl

/-- C10: every amount below 100,000 — negative amounts included — falls
through to the final branch and is rendered as the currency glyph followed by
the thousands-grouped rounded integer, no suffix; the formatter is a total
function, witnessed by the second conjunct evaluating it on a negative input. -/
theorem format_total_below_lakh :
    (∀ a : ℚ, a < 100000 → format_indian_currency a = "₹" ++ fmtGrouped0 a) ∧
      format_indian_currency (-1234567) = "₹-1,234,567" := by
  constructor
  · intro a h
    exact format_branch_small a (by simp; linarith) (by simp; linarith)
  · rw [format_branch_small _ (by norm_num) (by norm_num)]
    have h : rhe (-1234567 : ℚ) = -1234567 := by
      apply rhe_eq_low
      · push_cast; norm_num
      · push_cast; norm_num
    simp only [fmtGrouped0, h, if_pos (show (-1234567 : ℚ) < 0 by norm_num)]
    rfl

/-- C10 witness: the universal part of `format_total_below_lakh` applied at
the concrete negative amount -5000. -/
theorem format_total_below_lakh_witness :
    (-5000 : ℚ) < 100000 ∧
      format_indian_currency (-5000) = "₹" ++ fmtGrouped0 (-5000) :=
  ⟨by norm_num, format_total_below_lakh.1 (-5000) (by norm_num)⟩


/-- C4: the tier multiplier is exclusive and applies to the whole accumulated
price: with identical other fields, tier 1 multiplies the accumulated value by
1.2, tier 3 by 0.6, and any other tier (tier 2 included) applies no
multiplier, while tier 2 alone additionally receives the additive `tier_2`
adjustment inside the accumulation. -/
theorem tier_multiplier_exclusive (f : Features) (t : ℤ)
    (h1 : t ≠ 1) (h2 : t ≠ 2) (h3 : t ≠ 3) :
    preClamp { f with city_tier := 1 } = 1.2 * accumulate { f with city_tier := 1 } ∧
      preClamp { f with city_tier := 3 } = 0.6 * accumulate { f with city_tier := 3 } ∧
      preClamp { f with city_tier := 2 } = accumulate { f with city_tier := 2 } ∧
      preClamp { f with city_tier := t } = accumulate { f with city_tier := t } ∧
      tier2Adj 2 = coeff "tier_2" ∧
      tier2Adj t = 0 := by
  refine ⟨?_, ?_, ?_, ?_, ?_, ?_⟩
  · simp only [preClamp]
    norm_num [mul_comm]
  · simp only [preClamp]
    norm_num [mul_comm]
  · simp only [preClamp]
    norm_num
  · simp only [preClamp, h1, h3]
    norm_num [h1, h3]
  · simp [tier2Adj]
  · simp [tier2Adj, h2]

/-- C4 witness: `tier_multiplier_exclusive` instantiated at the sample record
and the tier value 0. -/
theorem tier_multiplier_exclusive_witness :
    ((0 : ℤ) ≠ 1 ∧ (0 : ℤ) ≠ 2 ∧ (0 : ℤ) ≠ 3) ∧
      (preClamp { sampleFeat with city_tier := 1 } =
          1.2 * accumulate { sampleFeat with city_tier := 1 } ∧
        preClamp { sampleFeat with city_tier := 3 } =
          0.6 * accumulate { sampleFeat with city_tier := 3 } ∧
        preClamp { sampleFeat with city_tier := 2 } =
          accumulate { sampleFeat with city_tier := 2 } ∧
        preClamp { sampleFeat with city_tier := 0 } =
          accumulate { sampleFeat with city_tier := 0 } ∧
        tier2Adj 2 = coeff "tier_2" ∧
        tier2Adj 0 = 0) :=
  ⟨⟨by decide, by decide, by decide⟩,
    tier_multiplier_exclusive sampleFeat 0 (by decide) (by decide) (by decide)⟩

/-- C5: holding every other field fixed, a strictly larger positive size gives
a strictly larger pre-clamp price: the size weight 2,500 and size-squared
weight 0.5 are both positive, and every tier multiplier is positive. -/
theorem size_strict_monotone (f : Features) (s1 s2 : ℚ)
    (hs1 : 0 < s1) (hs2 : 0 < s2) (h12 : s1 < s2) :
    preClamp { f with size := s1 } < preClamp { f with size := s2 } := by
  have hd := accumulate_size_diff f s1 s2
  have h05 : (0.5 : ℚ) = 1 / 2 := by norm_num
  rw [h05] at hd
  have hacc : accumulate { f with size := s1 } < accumulate { f with size := s2 } := by
    nlinarith [mul_pos (sub_pos.mpr h12) (add_pos hs2 hs1)]
  simp only [preClamp]
  split_ifs with ht1 ht3
  · exact mul_lt_mul_of_pos_right hacc (by norm_num)
  · exact mul_lt_mul_of_pos_right hacc (by norm_num)
  · exact hacc

/-- C5 witness: `size_strict_monotone` at the sample record with sizes 1000
and 2000. -/
theorem size_strict_monotone_witness :
    ((0 : ℚ) < 1000 ∧ (0 : ℚ) < 2000 ∧ (1000 : ℚ) < 2000) ∧
      preClamp { sampleFeat with size := 1000 } <
        preClamp { sampleFeat with size := 2000 } :=
  ⟨⟨by norm_num, by norm_num, by norm_num⟩,
    size_strict_monotone sampleFeat 1000 2000 (by norm_num) (by norm_num) (by norm_num)⟩


/-- C9 counterexample: in city tier 4 the effective per-bedroom weight
800000 - 200000*4 is zero, so adding a bedroom leaves the pre-clamp price
unchanged instead of strictly decreasing it as the claim states for every
tier ≥ 4. -/
theorem bedrooms_tier4_counterexample :
    c9Feat.city_tier = 4 ∧
      preClamp { c9Feat with bedrooms := 3 } = preClamp { c9Feat with bedrooms := 2 } ∧
      ¬ preClamp { c9Feat with bedrooms := 3 } < preClamp { c9Feat with bedrooms := 2 } := by
  have hd := accumulate_beds_diff c9Feat 2 3
  have hc : (800000 - 200000 * (c9Feat.city_tier : ℚ)) = 0 := by
    have h4 : ((c9Feat.city_tier : ℤ) : ℚ) = 4 := by norm_num [c9Feat]
    rw [h4]
    norm_num
  rw [hc, zero_mul] at hd
  have hacc : accumulate { c9Feat with bedrooms := 3 } =
      accumulate { c9Feat with bedrooms := 2 } := by linarith
  have heq : preClamp { c9Feat with bedrooms := 3 } =
      preClamp { c9Feat with bedrooms := 2 } := by
    simp only [preClamp]
    split_ifs with ht1 ht3
    · rw [hacc]
    · rw [hacc]
    · exact hacc
  exact ⟨rfl, heq, by rw [heq]; exact lt_irrefl _⟩

/-- C9 amended: with all other fields fixed and strictly more bedrooms, the
pre-clamp price strictly increases for city tiers 1, 2, 3 (effective bedroom
weight 800000 - 200000*tier positive), stays unchanged at tier 4 (weight
zero), and strictly decreases for every tier ≥ 5 (weight negative). -/
theorem bedrooms_monotonicity_amended (f : Features) (b1 b2 : ℤ) (hb : b1 < b2) :
    ((f.city_tier = 1 ∨ f.city_tier = 2 ∨ f.city_tier = 3) →
        preClamp { f with bedrooms := b1 } < preClamp { f with bedrooms := b2 }) ∧
      (f.city_tier = 4 →
        preClamp { f with bedrooms := b1 } = preClamp { f with bedrooms := b2 }) ∧
      (5 ≤ f.city_tier →
        preClamp { f with bedrooms := b2 } < preClamp { f with bedrooms := b1 }) := by
  have hd := accumulate_beds_diff f b1 b2
  have hbq : (b1 : ℚ) < (b2 : ℚ) := by exact_mod_cast hb
  refine ⟨?_, ?_, ?_⟩
  · intro ht
    have hpos : 0 < (800000 - 200000 * (f.city_tier : ℚ)) := by
      rcases ht with ht | ht | ht <;>
        · have hq : ((f.city_tier : ℤ) : ℚ) = _ := congrArg _ ht
          push_cast at hq
          rw [hq]
          norm_num
    have hacc : accumulate { f with bedrooms := b1 } <
        accumulate { f with bedrooms := b2 } := by
      nlinarith [mul_pos hpos (sub_pos.mpr hbq)]
    simp only [preClamp]
    split_ifs with ht1 ht3
    · exact mul_lt_mul_of_pos_right hacc (by norm_num)
    · exact mul_lt_mul_of_pos_right hacc (by norm_num)
    · exact hacc
  · intro ht
    have hc : (800000 - 200000 * (f.city_tier : ℚ)) = 0 := by
      have hq : ((f.city_tier : ℤ) : ℚ) = _ := congrArg _ ht
      push_cast at hq
      rw [hq]
      norm_num
    rw [hc, zero_mul] at hd
    have hacc : accumulate { f with bedrooms := b1 } =
        accumulate { f with bedrooms := b2 } := by linarith
    simp only [preClamp]
    split_ifs with ht1 ht3
    · rw [hacc]
    · rw [hacc]
    · exact hacc
  · intro ht
    have htq : (5 : ℚ) ≤ ((f.city_tier : ℤ) : ℚ) := by exact_mod_cast ht
    have hc : (800000 - 200000 * (f.city_tier : ℚ)) ≤ -200000 := by linarith
    have hprod : (800000 - 200000 * (f.city_tier : ℚ)) * ((b2 : ℚ) - (b1 : ℚ)) ≤
        -200000 * ((b2 : ℚ) - (b1 : ℚ)) :=
      mul_le_mul_of_nonneg_right hc (by linarith)
    have hacc : accumulate { f with bedrooms := b2 } <
        accumulate { f with bedrooms := b1 } := by nlinarith
    simp only [preClamp]
    split_ifs with h1 h3
    · exact absurd h1 (by omega)
    · exact absurd h3 (by omega)
    · exact hacc

/-- C9 amended witness: `bedrooms_monotonicity_amended` at the tier-4 sample
record with bedrooms 2 and 3. -/
theorem bedrooms_monotonicity_amended_witness :
    (2 : ℤ) < 3 ∧
      (((c9Feat.city_tier = 1 ∨ c9Feat.city_tier = 2 ∨ c9Feat.city_tier = 3) →
          preClamp { c9Feat with bedrooms := 2 } < preClamp { c9Feat with bedrooms := 3 }) ∧
        (c9Feat.city_tier = 4 →
          preClamp { c9Feat with bedrooms := 2 } = preClamp { c9Feat with bedrooms := 3 }) ∧
        (5 ≤ c9Feat.city_tier →
          preClamp { c9Feat with bedrooms := 3 } < preClamp { c9Feat with bedrooms := 2 })) :=
  ⟨by decide, bedrooms_monotonicity_amended c9Feat 2 3 (by decide)⟩


/-- C2 counterexample: through the `predict` route the furnishing field stays
a raw string, so the form value `"4"` never matches the source's comparison
with the int `4`: the resulting accumulated price equals the one for an
unadjusted furnishing value and the `furnishing_4` weight is not added; the
full route response on such a form is the price without the 500,000 premium. -/
theorem furnishing_route_counterexample :
    parseForm exForm4 = Except.ok exFeat4 ∧
      exFeat4.furnishing = PyVal.str "4" ∧
      accumulate exFeat4 = accumulate exFeatNone ∧
      accumulate exFeat4 ≠ accumulate exFeatNone + coeff "furnishing_4" ∧
      predict exForm4 = PredictResponse.ok 4450005 "₹44.5 L" "₹44.5 Lakhs" := by
  have haccA : accumulate exFeat4 = 4450005 := by
    simp only [accumulate, exFeat4, coeff_intercept, coeff_size, coeff_beds, coeff_baths,
      coeff_average_rent, coeff_growth_rate, coeff_size_squared, coeff_nearby_rent_squared,
      coeff_tier_beds, coeff_tier_growth, tier2Adj, propertyAdj, reraAdj, furnishingAdj,
      moveInAdj, reduceIte, String.reduceEq, reduceCtorEq]
    norm_num
    simp
  have haccB : accumulate exFeatNone = 4450005 := by
    simp only [accumulate, exFeatNone, coeff_intercept, coeff_size, coeff_beds, coeff_baths,
      coeff_average_rent, coeff_growth_rate, coeff_size_squared, coeff_nearby_rent_squared,
      coeff_tier_beds, coeff_tier_growth, tier2Adj, propertyAdj, reraAdj, furnishingAdj,
      moveInAdj, reduceIte, String.reduceEq, reduceCtorEq]
    norm_num
    simp
  have hpre : preClamp exFeat4 = 4450005 := by
    simp only [preClamp]
    split_ifs with h1 h3
    · exact absurd h1 (by decide)
    · exact absurd h3 (by decide)
    · exact haccA
  have hcalc : calculate_ols_price exFeat4 = 4450005 := by
    rw [calculate_ols_price, hpre]
    exact max_eq_left (by norm_num)
  have hround : round2 (4450005 : ℚ) = 4450005 := by
    rw [round2, rhe_eq_low ((4450005 : ℚ) * 100) 445000500 (by norm_num) (by norm_num)]
    push_cast
    norm_num
  have hfmt : format_indian_currency 4450005 = "₹44.5 L" := by
    rw [format_branch_lakh1 _ (by norm_num) (by norm_num) (by norm_num),
      fmtFixed1_eval _ 445 (by norm_num) (rhe_eq_low _ 445 (by norm_num) (by norm_num))]
    rfl
  have hlakh : "₹" ++ fmtFixed1 ((4450005 : ℚ) / 100000) ++ " Lakhs" = "₹44.5 Lakhs" := by
    rw [fmtFixed1_eval _ 445 (by norm_num) (rhe_eq_low _ 445 (by norm_num) (by norm_num))]
    rfl
  refine ⟨rfl, rfl, by rw [haccA, haccB], ?_, ?_⟩
  · rw [haccA, haccB, coeff_furnishing_4]
    norm_num
  · have hparse : parseForm exForm4 = Except.ok exFeat4 := rfl
    simp only [predict, hparse, predict_price, hcalc, hround, hfmt, hlakh]

/-- C2 amended: through the `predict` route the furnishing value is always a
raw string, a string furnishing adds the `furnishing_other` weight (800,000)
exactly when it is `"other"` and adds nothing otherwise (in particular for
`"4"`), and only the int value `4` — which the route never produces — would
add the `furnishing_4` weight (500,000). -/
theorem furnishing_route_amended :
    (∀ fm f, parseForm fm = Except.ok f → ∃ s, f.furnishing = PyVal.str s) ∧
      (∀ s, furnishingAdj (PyVal.str s) =
        if s = "other" then coeff "furnishing_other" else 0) ∧
      coeff "furnishing_other" = 800000 ∧
      furnishingAdj (PyVal.int 4) = coeff "furnishing_4" ∧
      coeff "furnishing_4" = 500000 := by
  refine ⟨?_, ?_, rfl, rfl, rfl⟩
  · intro fm f h
    simp only [parseForm, bind, Except.bind, pure, Except.pure] at h
    repeat' split at h
    all_goals try exact Except.noConfusion h
    cases h
    exact ⟨_, rfl⟩
  · intro s
    simp only [furnishingAdj, reduceCtorEq, if_false, PyVal.str.injEq]

/-- C2 amended witness: the route part of `furnishing_route_amended` applied
to the concrete form whose furnishing field is `"4"`. -/
theorem furnishing_route_amended_witness :
    parseForm exForm4 = Except.ok exFeat4 ∧ ∃ s, exFeat4.furnishing = PyVal.str s :=
  ⟨rfl, furnishing_route_amended.1 exForm4 exFeat4 rfl⟩

/-- C7: the `predict` route converts any parse failure into a failure
response carrying the error description and never propagates it; on success
it returns the amount rounded to 2 decimal places, the primary formatted
string, and the secondary "Lakhs" string (amount / 100,000 at 1 decimal
place); every invocation yields one of the two response shapes. -/
theorem predict_error_handling :
    (∀ fm e, parseForm fm = Except.error e → predict fm = PredictResponse.err e) ∧
      (∀ fm f, parseForm fm = Except.ok f →
        predict fm = PredictResponse.ok (round2 (calculate_ols_price f))
          (format_indian_currency (calculate_ols_price f))
          ("₹" ++ fmtFixed1 (calculate_ols_price f / 100000) ++ " Lakhs")) ∧
      (∀ fm, (∃ e, predict fm = PredictResponse.err e) ∨
        ∃ p fs pl, predict fm = PredictResponse.ok p fs pl) := by
  refine ⟨?_, ?_, ?_⟩
  · intro fm e h
    simp only [predict, h]
  · intro fm f h
    simp only [predict, h, predict_price]
  · intro fm
    cases hp : parseForm fm with
    | error e => exact Or.inl ⟨e, by simp only [predict, hp]⟩
    | ok f =>
        exact Or.inr ⟨round2 (predict_price f), format_indian_currency (predict_price f),
          "₹" ++ fmtFixed1 (predict_price f / 100000) ++ " Lakhs", by simp only [predict, hp]⟩

/-- C7 witness: the failure part of `predict_error_handling` on a form whose
first field fails to parse. -/
theorem predict_error_handling_witness :
    parseForm errForm = Except.error "could not convert string to float: abc" ∧
      predict errForm = PredictResponse.err "could not convert string to float: abc" :=
  ⟨rfl, predict_error_handling.1 errForm _ rfl⟩

/-- C8: the `retrain` route (the DescribeModel operation) always returns
`success = true`, its coefficient table is exactly the process-wide constant
table with its 17 named, pairwise distinct entries, and — the embedding being
a pure constant — no state is mutated: the returned table and feature list are
the initialization-time values themselves. -/
theorem retrain_static_metadata :
    retrain_model.success = true ∧
      retrain_model.model_info.coefficients = coefficients ∧
      coefficients.length = 17 ∧
      (coefficients.map Prod.fst).Nodup ∧
      retrain_model.model_info.features = feature_columns := by
  refine ⟨rfl, rfl, rfl, ?_, rfl⟩
  decide

end PropertyPandit




